import Mathlib

set_option maxRecDepth 4000

/-!
Verification of the P1 serial logger core: the packet data model, the two
plausibility validators, the wire format decoder, the stream framer and the
supervisor read loop, shallowly embedded from the Python source
(custom components dries007 p1: p1logger.py and packet.py).
-/

/-- Decoded packet record, one field per entry of the wire format, in wire
order. Field values are the raw unscaled unsigned integers taken from the
wire; the updated field models the wall clock capture timestamp assigned at
decode time. Mirrors the NamedTuple named Packet in the source. -/
structure Packet where
  pre0 : Nat
  pre1 : Nat
  pre2 : Nat
  timestamp : Nat
  meter_delivered_t1 : Nat
  meter_delivered_t2 : Nat
  meter_injected_t1 : Nat
  meter_injected_t2 : Nat
  sum_power_delivered : Nat
  sum_power_injected : Nat
  power_per_phase_delivered_1 : Nat
  power_per_phase_delivered_2 : Nat
  power_per_phase_delivered_3 : Nat
  power_per_phase_injected_1 : Nat
  power_per_phase_injected_2 : Nat
  power_per_phase_injected_3 : Nat
  voltage_per_phase_1 : Nat
  voltage_per_phase_2 : Nat
  voltage_per_phase_3 : Nat
  current_per_phase_1 : Nat
  current_per_phase_2 : Nat
  current_per_phase_3 : Nat
  gas_volume : Nat
  tariff : Nat
  checksum : Nat
  post0 : Nat
  post1 : Nat
  updated : Nat
  deriving DecidableEq

deriving instance DecidableEq for Except

/-- The structural checks asserted at the top of is_sane_followup in both
source modules: marker bytes, timestamp below the error code threshold,
tariff 1 or 2, and each phase voltage strictly between 1900 and 2700 in the
raw times 0.1 domain. -/
def StructOk (p : Packet) : Prop :=
  p.pre0 = 0x42 ∧ p.pre1 = 0xAA ∧ p.pre2 = 0xFF ∧
  p.post0 = 0x55 ∧ p.post1 = 0xAA ∧
  p.timestamp < 0x80000000 ∧
  (p.tariff = 1 ∨ p.tariff = 2) ∧
  (1900 < p.voltage_per_phase_1 ∧ p.voltage_per_phase_1 < 2700) ∧
  (1900 < p.voltage_per_phase_2 ∧ p.voltage_per_phase_2 < 2700) ∧
  (1900 < p.voltage_per_phase_3 ∧ p.voltage_per_phase_3 < 2700)

instance : DecidablePred StructOk := fun p => by
  unfold StructOk; infer_instance

/-- Validator of p1logger.py. Each Python assert that fails raises, which the
embedding models as an error result; the returned boolean is the continuity
verdict. The continuity check requires every cumulative delta to lie in
the interval from 0 inclusive to 10000 exclusive. -/
def Packet.is_sane_followup (self : Packet) (pp : Option Packet) : Except String Bool :=
  if self.pre0 ≠ 0x42 then .error ("Bad prefix byte 0")
  else if self.pre1 ≠ 0xAA then .error ("Bad prefix byte 1")
  else if self.pre2 ≠ 0xFF then .error ("Bad prefix byte 2")
  else if self.post0 ≠ 0x55 then .error ("Bad postfix byte 0")
  else if self.post1 ≠ 0xAA then .error ("Bad postfix byte 1")
  else if ¬ self.timestamp < 0x80000000 then .error ("Error packet")
  else if ¬ (self.tariff = 1 ∨ self.tariff = 2) then .error ("Tariff must be 1 or 2.")
  else if ¬ (1900 < self.voltage_per_phase_1 ∧ self.voltage_per_phase_1 < 2700) then .error ("Voltage P1 out of bounds of normal.")
  else if ¬ (1900 < self.voltage_per_phase_2 ∧ self.voltage_per_phase_2 < 2700) then .error ("Voltage P2 out of bounds of normal.")
  else if ¬ (1900 < self.voltage_per_phase_3 ∧ self.voltage_per_phase_3 < 2700) then .error ("Voltage P3 out of bounds of normal.")
  else match pp with
  | none => .ok true
  | some pp => .ok (decide (
      (0 ≤ (self.gas_volume : Int) - pp.gas_volume ∧ (self.gas_volume : Int) - pp.gas_volume < 10000) ∧
      (0 ≤ (self.meter_delivered_t1 : Int) - pp.meter_delivered_t1 ∧ (self.meter_delivered_t1 : Int) - pp.meter_delivered_t1 < 10000) ∧
      (0 ≤ (self.meter_delivered_t2 : Int) - pp.meter_delivered_t2 ∧ (self.meter_delivered_t2 : Int) - pp.meter_delivered_t2 < 10000) ∧
      (0 ≤ (self.meter_injected_t1 : Int) - pp.meter_injected_t1 ∧ (self.meter_injected_t1 : Int) - pp.meter_injected_t1 < 10000) ∧
      (0 ≤ (self.meter_injected_t2 : Int) - pp.meter_injected_t2 ∧ (self.meter_injected_t2 : Int) - pp.meter_injected_t2 < 10000)))

/-- Validator of packet.py, the near duplicate module. It differs from the
p1logger.py copy only in the continuity range: each cumulative delta must lie
in the interval from minus 10000 inclusive to 10000 exclusive, so decreases
down to minus 10000 are accepted. -/
def Packet.is_sane_followup_pkt (self : Packet) (pp : Option Packet) : Except String Bool :=
  if self.pre0 ≠ 0x42 then .error ("Bad prefix byte 0")
  else if self.pre1 ≠ 0xAA then .error ("Bad prefix byte 1")
  else if self.pre2 ≠ 0xFF then .error ("Bad prefix byte 2")
  else if self.post0 ≠ 0x55 then .error ("Bad postfix byte 0")
  else if self.post1 ≠ 0xAA then .error ("Bad postfix byte 1")
  else if ¬ self.timestamp < 0x80000000 then .error ("Error packet")
  else if ¬ (self.tariff = 1 ∨ self.tariff = 2) then .error ("Tariff must be 1 or 2.")
  else if ¬ (1900 < self.voltage_per_phase_1 ∧ self.voltage_per_phase_1 < 2700) then .error ("Voltage P1 out of bounds of normal.")
  else if ¬ (1900 < self.voltage_per_phase_2 ∧ self.voltage_per_phase_2 < 2700) then .error ("Voltage P2 out of bounds of normal.")
  else if ¬ (1900 < self.voltage_per_phase_3 ∧ self.voltage_per_phase_3 < 2700) then .error ("Voltage P3 out of bounds of normal.")
  else match pp with
  | none => .ok true
  | some pp => .ok (decide (
      (-10000 ≤ (self.gas_volume : Int) - pp.gas_volume ∧ (self.gas_volume : Int) - pp.gas_volume < 10000) ∧
      (-10000 ≤ (self.meter_delivered_t1 : Int) - pp.meter_delivered_t1 ∧ (self.meter_delivered_t1 : Int) - pp.meter_delivered_t1 < 10000) ∧
      (-10000 ≤ (self.meter_delivered_t2 : Int) - pp.meter_delivered_t2 ∧ (self.meter_delivered_t2 : Int) - pp.meter_delivered_t2 < 10000) ∧
      (-10000 ≤ (self.meter_injected_t1 : Int) - pp.meter_injected_t1 ∧ (self.meter_injected_t1 : Int) - pp.meter_injected_t1 < 10000) ∧
      (-10000 ≤ (self.meter_injected_t2 : Int) - pp.meter_injected_t2 ∧ (self.meter_injected_t2 : Int) - pp.meter_injected_t2 < 10000)))

/-- Size in bytes of one struct format character: B is one byte, H two, I
four; the leading byte order marker occupies no bytes. -/
def fieldSize : Char → Nat
  | 'B' => 1
  | 'H' => 2
  | 'I' => 4
  | _ => 0

/-- The packed little endian struct format string shared by both modules. -/
def PACKET_FORMAT : String := "=BBBIIIIIHHHHHHHHHHHHHHIBHBB"

/-- Total byte size of a struct format, as struct.calcsize computes it for a
packed format. -/
def calcsize (fmt : String) : Nat := (fmt.data.map fieldSize).sum

/-- PACKET_SIZE as computed in the source from the format string. -/
def PACKET_SIZE : Nat := calcsize PACKET_FORMAT

/-- Value of a little endian byte sequence: first byte is least significant. -/
def leVal : List Nat → Nat
  | [] => 0
  | b :: rest => b + 256 * leVal rest

/-- Unpack a byte list against a format character list, little endian, exactly
consuming the buffer; models struct.unpack, which raises (here: none) when
the buffer length does not match the format. -/
def unpackFields : List Char → List Nat → Option (List Nat)
  | [], bs => if bs.isEmpty then some [] else none
  | c :: cs, bs =>
    let n := fieldSize c
    if n = 0 then unpackFields cs bs
    else if n ≤ bs.length then
      (unpackFields cs (bs.drop n)).map (fun vs => leVal (bs.take n) :: vs)
    else none

/-- The field values a successful unpack returns, one per format character,
each read little endian at its cumulative offset. -/
def fieldVals : List Char → List Nat → List Nat
  | [], _ => []
  | c :: cs, bs => leVal (bs.take (fieldSize c)) :: fieldVals cs (bs.drop (fieldSize c))

/-- Decode one raw frame into a Packet, stamping the capture time; models
Packet(struct.unpack(PACKET_FORMAT, packet), updated=now). None models the
struct.error exception on a buffer whose length does not fit the format. -/
def decodePacket (bs : List Nat) (now : Nat) : Option Packet :=
  match unpackFields PACKET_FORMAT.data bs with
  | some [a0, a1, a2, ts, mdt1, mdt2, mit1, mit2, spd, spi,
          ppd1, ppd2, ppd3, ppi1, ppi2, ppi3, v1, v2, v3,
          c1, c2, c3, gas, tar, chk, q0, q1] =>
    some ⟨a0, a1, a2, ts, mdt1, mdt2, mit1, mit2, spd, spi,
          ppd1, ppd2, ppd3, ppi1, ppi2, ppi3, v1, v2, v3,
          c1, c2, c3, gas, tar, chk, q0, q1, now⟩
  | _ => none

/-- Is there an occurrence of the 3 byte header marker 42 AA FF starting at
index i of the unit. -/
def isHeaderAt (u : List Nat) (i : Nat) : Bool :=
  (u.drop i).take 3 == [0x42, 0xAA, 0xFF]

/-- Scan indices from i down to 0 for the last header occurrence at or below
i; helper for the backward search of bytes.rfind. -/
def rfindAux (u : List Nat) : Nat → Option Nat
  | 0 => if isHeaderAt u 0 then some 0 else none
  | i + 1 => if isHeaderAt u (i + 1) then some (i + 1) else rfindAux u i

/-- Index of the last occurrence of the header marker in the unit, as
raw.rfind of the 3 header bytes computes it; none models the return of -1. -/
def rfindHeader (u : List Nat) : Option Nat := rfindAux u u.length

/-- Candidate frame the Stream Framer extracts from one transmission unit:
the bytes from the last header occurrence to the end of the unit, or none
when no header occurs; models start = raw.rfind(header) and raw[start:]. -/
def extractCandidate (u : List Nat) : Option (List Nat) :=
  match rfindHeader u with
  | none => none
  | some start => some (u.drop start)

/-- State of the serial read loop: the continuity reference passed to the
validator, the published packet, and the counters, as held by serial_read
and the P1Logger object. -/
structure LoopState where
  previous_packet : Option Packet
  packet : Option Packet
  attempts : Nat
  fail_len : Nat
  fail_parse : Nat
  fail_insane : Nat
  consecutive_fails : Nat
  deriving DecidableEq

/-- Loop state on entry to serial_read, before any unit is processed. -/
def initState : LoopState :=
  ⟨none, none, 0, 0, 0, 0, 0⟩

/-- One iteration of the inner read loop of serial_read on a raw transmission
unit, after the consecutive failure guard: header search, length check,
decode, validation (where a raised assert lands in the parse failure branch),
and on success the commit that publishes the packet. -/
def serialReadStep (s : LoopState) (raw : List Nat) (now : Nat) : LoopState :=
  match rfindHeader raw with
  | none => s
  | some start =>
    let packet := raw.drop start
    let s := { s with attempts := s.attempts + 1 }
    if packet.length ≠ PACKET_SIZE then
      { s with consecutive_fails := s.consecutive_fails + 1, fail_len := s.fail_len + 1 }
    else
      match decodePacket packet now with
      | none =>
        { s with consecutive_fails := s.consecutive_fails + 1, fail_parse := s.fail_parse + 1 }
      | some parsed =>
        match parsed.is_sane_followup s.previous_packet with
        | .error _ =>
          { s with consecutive_fails := s.consecutive_fails + 1, fail_parse := s.fail_parse + 1 }
        | .ok false =>
          { s with consecutive_fails := s.consecutive_fails + 1, fail_insane := s.fail_insane + 1 }
        | .ok true =>
          { s with consecutive_fails := 0,
                   previous_packet := s.packet,
                   packet := some parsed }

/-- Run the inner read loop over a list of incoming units with their capture
times. Before each read the loop checks the consecutive failure budget; when
it exceeds 10 the loop breaks to signal a reconnect, returning true. -/
def runInner (s : LoopState) : List (List Nat × Nat) → LoopState × Bool
  | [] => (s, false)
  | (raw, now) :: rest =>
    if s.consecutive_fails > 10 then (s, true)
    else runInner (serialReadStep s raw now) rest

/-- State on re-entering the streaming state after a reconnect: the counters
and packets persist, the consecutive failure counter is assigned zero right
after the connection is established. -/
def reconnectState (s : LoopState) : LoopState :=
  { s with consecutive_fails := 0 }

/-- The 27 field characters of the packet format, after the byte order
marker. -/
def fmtTail : List Char :=
  ['B', 'B', 'B', 'I', 'I', 'I', 'I', 'I', 'H', 'H', 'H', 'H', 'H', 'H',
   'H', 'H', 'H', 'H', 'H', 'H', 'H', 'H', 'I', 'B', 'H', 'B', 'B']

/-- Continuity condition of the p1logger.py validator: every cumulative delta
lies in the interval from 0 inclusive to 10000 exclusive. -/
def DeltasNonNeg (c p : Packet) : Prop :=
  (0 ≤ (c.gas_volume : Int) - p.gas_volume ∧ (c.gas_volume : Int) - p.gas_volume < 10000) ∧
  (0 ≤ (c.meter_delivered_t1 : Int) - p.meter_delivered_t1 ∧ (c.meter_delivered_t1 : Int) - p.meter_delivered_t1 < 10000) ∧
  (0 ≤ (c.meter_delivered_t2 : Int) - p.meter_delivered_t2 ∧ (c.meter_delivered_t2 : Int) - p.meter_delivered_t2 < 10000) ∧
  (0 ≤ (c.meter_injected_t1 : Int) - p.meter_injected_t1 ∧ (c.meter_injected_t1 : Int) - p.meter_injected_t1 < 10000) ∧
  (0 ≤ (c.meter_injected_t2 : Int) - p.meter_injected_t2 ∧ (c.meter_injected_t2 : Int) - p.meter_injected_t2 < 10000)

/-- Continuity condition of the packet.py validator: every cumulative delta
lies in the symmetric interval from minus 10000 inclusive to 10000
exclusive. -/
def DeltasSym (c p : Packet) : Prop :=
  (-10000 ≤ (c.gas_volume : Int) - p.gas_volume ∧ (c.gas_volume : Int) - p.gas_volume < 10000) ∧
  (-10000 ≤ (c.meter_delivered_t1 : Int) - p.meter_delivered_t1 ∧ (c.meter_delivered_t1 : Int) - p.meter_delivered_t1 < 10000) ∧
  (-10000 ≤ (c.meter_delivered_t2 : Int) - p.meter_delivered_t2 ∧ (c.meter_delivered_t2 : Int) - p.meter_delivered_t2 < 10000) ∧
  (-10000 ≤ (c.meter_injected_t1 : Int) - p.meter_injected_t1 ∧ (c.meter_injected_t1 : Int) - p.meter_injected_t1 < 10000) ∧
  (-10000 ≤ (c.meter_injected_t2 : Int) - p.meter_injected_t2 ∧ (c.meter_injected_t2 : Int) - p.meter_injected_t2 < 10000)

instance (c p : Packet) : Decidable (DeltasNonNeg c p) := by
  unfold DeltasNonNeg; infer_instance

instance (c p : Packet) : Decidable (DeltasSym c p) := by
  unfold DeltasSym; infer_instance

/-- A structurally valid packet with all cumulative meters zero except a
chosen gas volume: markers correct, timestamp 0, voltages 2300, tariff 1. -/
def samplePacket (gas : Nat) : Packet :=
  ⟨0x42, 0xAA, 0xFF, 0, 0, 0, 0, 0, 0, 0, 0, 0, 0, 0, 0, 0,
   2300, 2300, 2300, 0, 0, 0, gas, 1, 0, 0x55, 0xAA, 0⟩

/-- The 60 byte wire frame that decodes to samplePacket gas: header, zero
timestamp and meters, voltages 2300 little endian, gas little endian,
tariff 1, zero checksum, trailer. -/
def sampleFrame (gas : Nat) : List Nat :=
  [0x42, 0xAA, 0xFF] ++ List.replicate 36 0 ++
  [0xFC, 0x08, 0xFC, 0x08, 0xFC, 0x08] ++ List.replicate 6 0 ++
  [gas % 256, gas / 256 % 256, gas / 65536 % 256, gas / 16777216 % 256] ++
  [1, 0, 0] ++ [0x55, 0xAA]

/-- The packet one read loop iteration accepts and publishes, if any: header
found, length exactly PACKET_SIZE, decode succeeded, and the validator
returned ok true against the current continuity reference. -/
def stepAccepts (s : LoopState) (raw : List Nat) (now : Nat) : Option Packet :=
  match rfindHeader raw with
  | none => none
  | some start =>
    if (raw.drop start).length ≠ PACKET_SIZE then none
    else match decodePacket (raw.drop start) now with
      | none => none
      | some parsed =>
        match parsed.is_sane_followup s.previous_packet with
        | .ok true => some parsed
        | _ => none

/-- Invariant: whenever a packet is published, it satisfies every structural
check of the validator. -/
def StructInv (s : LoopState) : Prop :=
  ∀ p, s.packet = some p → StructOk p

/-- Modelled from the spec: per field byte widths of the wire format table in
section 6 of the spec, in table order; the table lists the four meter totals
and the two aggregate sum power fields at 4 bytes each. -/
def specTableWidths : List Nat :=
  [1, 1, 1, 4, 4, 4, 4, 4, 4, 4, 2, 2, 2, 2, 2, 2, 2, 2, 2, 2, 2, 2, 4, 1, 2, 1, 1]

/-- The spec table widths with the two aggregate sum power fields at the
2 byte width the implementation actually packs them with. -/
def specTableWidthsAmended : List Nat :=
  [1, 1, 1, 4, 4, 4, 4, 4, 2, 2, 2, 2, 2, 2, 2, 2, 2, 2, 2, 2, 2, 2, 4, 1, 2, 1, 1]

theorem unpackFields_eq_fieldVals : ∀ (cs : List Char) (bs : List Nat),
    (∀ c ∈ cs, fieldSize c ≠ 0) → bs.length = (cs.map fieldSize).sum →
    unpackFields cs bs = some (fieldVals cs bs) := by
  intro cs
  induction cs with
  | nil =>
    intro bs _ hlen
    simp at hlen
    simp [unpackFields, fieldVals, hlen]
  | cons c cs ih =>
    intro bs hz hlen
    have hc : fieldSize c ≠ 0 := hz c (by simp)
    have hlen' : (bs.drop (fieldSize c)).length = (cs.map fieldSize).sum := by
      simp only [List.length_drop, hlen, List.map_cons, List.sum_cons]
      omega
    have hle : fieldSize c ≤ bs.length := by
      simp only [hlen, List.map_cons, List.sum_cons]
      omega
    simp [unpackFields, hc, hle, fieldVals,
      ih (bs.drop (fieldSize c)) (fun d hd => hz d (by simp [hd])) hlen']

theorem packet_format_data : PACKET_FORMAT.data = '=' :: fmtTail := rfl

theorem decodePacket_offsets (bs : List Nat) (now : Nat) (hlen : bs.length = 60) :
    decodePacket bs now = some ⟨
      leVal (bs.take 1), leVal ((bs.drop 1).take 1), leVal ((bs.drop 2).take 1),
      leVal ((bs.drop 3).take 4), leVal ((bs.drop 7).take 4), leVal ((bs.drop 11).take 4),
      leVal ((bs.drop 15).take 4), leVal ((bs.drop 19).take 4),
      leVal ((bs.drop 23).take 2), leVal ((bs.drop 25).take 2),
      leVal ((bs.drop 27).take 2), leVal ((bs.drop 29).take 2), leVal ((bs.drop 31).take 2),
      leVal ((bs.drop 33).take 2), leVal ((bs.drop 35).take 2), leVal ((bs.drop 37).take 2),
      leVal ((bs.drop 39).take 2), leVal ((bs.drop 41).take 2), leVal ((bs.drop 43).take 2),
      leVal ((bs.drop 45).take 2), leVal ((bs.drop 47).take 2), leVal ((bs.drop 49).take 2),
      leVal ((bs.drop 51).take 4), leVal ((bs.drop 55).take 1), leVal ((bs.drop 56).take 2),
      leVal ((bs.drop 58).take 1), leVal ((bs.drop 59).take 1), now⟩ := by
  have hu : unpackFields PACKET_FORMAT.data bs = some (fieldVals fmtTail bs) := by
    rw [packet_format_data]
    rw [show unpackFields ('=' :: fmtTail) bs = unpackFields fmtTail bs from rfl]
    exact unpackFields_eq_fieldVals fmtTail bs (by decide) (by rw [hlen]; decide)
  unfold decodePacket
  rw [hu]
  simp only [fieldVals, fmtTail, show fieldSize 'B' = 1 from rfl,
    show fieldSize 'H' = 2 from rfl, show fieldSize 'I' = 4 from rfl,
    List.drop_drop, Nat.reduceAdd]

theorem decodePacket_markers (bs : List Nat) (now : Nat) (hlen : bs.length = 60)
    (h3 : bs.take 3 = [0x42, 0xAA, 0xFF]) (h58 : bs.drop 58 = [0x55, 0xAA]) :
    ∃ p, decodePacket bs now = some p ∧ p.pre0 = 0x42 ∧ p.pre1 = 0xAA ∧
      p.pre2 = 0xFF ∧ p.post0 = 0x55 ∧ p.post1 = 0xAA ∧ p.updated = now := by
  obtain ⟨t, rfl⟩ : ∃ t : List Nat, bs = 0x42 :: 0xAA :: 0xFF :: t := by
    refine ⟨bs.drop 3, ?_⟩
    conv_lhs => rw [← List.take_append_drop 3 bs]
    rw [h3]
    rfl
  have h55 : t.drop 55 = [0x55, 0xAA] := by
    rw [show (0x42 :: 0xAA :: 0xFF :: t).drop 58 = t.drop 55 from rfl] at h58
    exact h58
  have h56 : t.drop 56 = [0xAA] := by
    have h := congrArg (List.drop 1) h55
    rw [List.drop_drop] at h
    norm_num at h
    exact h
  refine ⟨_, decodePacket_offsets _ now hlen, ?_, ?_, ?_, ?_, ?_, rfl⟩
  · rfl
  · rfl
  · rfl
  · show leVal (((0x42 :: 0xAA :: 0xFF :: t).drop 58).take 1) = 0x55
    rw [show (0x42 :: 0xAA :: 0xFF :: t).drop 58 = t.drop 55 from rfl, h55]
    decide
  · show leVal (((0x42 :: 0xAA :: 0xFF :: t).drop 59).take 1) = 0xAA
    rw [show (0x42 :: 0xAA :: 0xFF :: t).drop 59 = t.drop 56 from rfl, h56]
    decide

theorem isHeaderAt_bound {u : List Nat} {k : Nat} (h : isHeaderAt u k = true) :
    k + 3 ≤ u.length := by
  have h3 : (u.drop k).take 3 = [0x42, 0xAA, 0xFF] := by
    simpa [isHeaderAt] using h
  have := congrArg List.length h3
  simp [List.length_take, List.length_drop] at this
  omega

theorem isHeaderAt_take {u : List Nat} {k : Nat} (h : isHeaderAt u k = true) :
    (u.drop k).take 3 = [0x42, 0xAA, 0xFF] := by
  simpa [isHeaderAt] using h

theorem rfindAux_some {u : List Nat} {i j : Nat} (h : rfindAux u i = some j) :
    j ≤ i ∧ isHeaderAt u j = true ∧ ∀ k, j < k → k ≤ i → isHeaderAt u k = false := by
  induction i with
  | zero =>
    by_cases h0 : isHeaderAt u 0 = true
    · simp [rfindAux, h0] at h
      subst h
      exact ⟨Nat.le_refl 0, h0, fun k hk hk0 => absurd (Nat.lt_of_lt_of_le hk hk0) (by omega)⟩
    · simp [rfindAux, Bool.of_not_eq_true h0] at h
  | succ i ih =>
    by_cases hs : isHeaderAt u (i + 1) = true
    · simp [rfindAux, hs] at h
      subst h
      exact ⟨Nat.le_refl _, hs, fun k hk hk' => absurd (Nat.lt_of_lt_of_le hk hk') (by omega)⟩
    · simp [rfindAux, Bool.of_not_eq_true hs] at h
      obtain ⟨hji, hj, hlast⟩ := ih h
      refine ⟨Nat.le_succ_of_le hji, hj, fun k hk hk' => ?_⟩
      rcases Nat.lt_or_ge k (i + 1) with hlt | hge
      · exact hlast k hk (by omega)
      · have : k = i + 1 := by omega
        subst this
        exact Bool.of_not_eq_true hs

theorem rfindAux_exists {u : List Nat} {j : Nat} (hh : isHeaderAt u j = true) :
    ∀ i, j ≤ i → ∃ r, rfindAux u i = some r := by
  intro i
  induction i with
  | zero =>
    intro hj
    have : j = 0 := Nat.le_zero.mp hj
    subst this
    exact ⟨0, by simp [rfindAux, hh]⟩
  | succ i ih =>
    intro hj
    by_cases hs : isHeaderAt u (i + 1) = true
    · exact ⟨i + 1, by simp [rfindAux, hs]⟩
    · rcases Nat.lt_or_ge j (i + 1) with hlt | hge
      · obtain ⟨r, hr⟩ := ih (by omega)
        exact ⟨r, by simp [rfindAux, Bool.of_not_eq_true hs, hr]⟩
      · have : j = i + 1 := by omega
        subst this
        exact absurd hh hs

theorem rfindHeader_some {u : List Nat} {j : Nat} (h : rfindHeader u = some j) :
    isHeaderAt u j = true ∧ ∀ k, j < k → isHeaderAt u k = false := by
  obtain ⟨hji, hj, hlast⟩ := rfindAux_some h
  refine ⟨hj, fun k hk => ?_⟩
  rcases le_or_lt k u.length with hle | hgt
  · exact hlast k hk hle
  · by_cases hku : isHeaderAt u k = true
    · have := isHeaderAt_bound hku
      omega
    · exact Bool.of_not_eq_true hku

theorem rfindHeader_of_header {u : List Nat} {j : Nat} (hh : isHeaderAt u j = true) :
    ∃ r, rfindHeader u = some r := by
  exact rfindAux_exists hh u.length (by have := isHeaderAt_bound hh; omega)

theorem is_sane_followup_ok_struct {c : Packet} {pp : Option Packet} {b : Bool}
    (h : c.is_sane_followup pp = .ok b) : StructOk c := by
  unfold Packet.is_sane_followup at h
  by_cases h1 : c.pre0 ≠ 0x42
  · rw [if_pos h1] at h
    exact Except.noConfusion h
  rw [if_neg h1] at h
  by_cases h2 : c.pre1 ≠ 0xAA
  · rw [if_pos h2] at h
    exact Except.noConfusion h
  rw [if_neg h2] at h
  by_cases h3 : c.pre2 ≠ 0xFF
  · rw [if_pos h3] at h
    exact Except.noConfusion h
  rw [if_neg h3] at h
  by_cases h4 : c.post0 ≠ 0x55
  · rw [if_pos h4] at h
    exact Except.noConfusion h
  rw [if_neg h4] at h
  by_cases h5 : c.post1 ≠ 0xAA
  · rw [if_pos h5] at h
    exact Except.noConfusion h
  rw [if_neg h5] at h
  by_cases h6 : ¬ c.timestamp < 0x80000000
  · rw [if_pos h6] at h
    exact Except.noConfusion h
  rw [if_neg h6] at h
  by_cases h7 : ¬ (c.tariff = 1 ∨ c.tariff = 2)
  · rw [if_pos h7] at h
    exact Except.noConfusion h
  rw [if_neg h7] at h
  by_cases h8 : ¬ (1900 < c.voltage_per_phase_1 ∧ c.voltage_per_phase_1 < 2700)
  · rw [if_pos h8] at h
    exact Except.noConfusion h
  rw [if_neg h8] at h
  by_cases h9 : ¬ (1900 < c.voltage_per_phase_2 ∧ c.voltage_per_phase_2 < 2700)
  · rw [if_pos h9] at h
    exact Except.noConfusion h
  rw [if_neg h9] at h
  by_cases h10 : ¬ (1900 < c.voltage_per_phase_3 ∧ c.voltage_per_phase_3 < 2700)
  · rw [if_pos h10] at h
    exact Except.noConfusion h
  rw [if_neg h10] at h
  push_neg at h1 h2 h3 h4 h5 h6 h7 h8 h9 h10
  exact ⟨h1, h2, h3, h4, h5, h6, h7, h8, h9, h10⟩

theorem is_sane_followup_pkt_ok_struct {c : Packet} {pp : Option Packet} {b : Bool}
    (h : c.is_sane_followup_pkt pp = .ok b) : StructOk c := by
  unfold Packet.is_sane_followup_pkt at h
  by_cases h1 : c.pre0 ≠ 0x42
  · rw [if_pos h1] at h
    exact Except.noConfusion h
  rw [if_neg h1] at h
  by_cases h2 : c.pre1 ≠ 0xAA
  · rw [if_pos h2] at h
    exact Except.noConfusion h
  rw [if_neg h2] at h
  by_cases h3 : c.pre2 ≠ 0xFF
  · rw [if_pos h3] at h
    exact Except.noConfusion h
  rw [if_neg h3] at h
  by_cases h4 : c.post0 ≠ 0x55
  · rw [if_pos h4] at h
    exact Except.noConfusion h
  rw [if_neg h4] at h
  by_cases h5 : c.post1 ≠ 0xAA
  · rw [if_pos h5] at h
    exact Except.noConfusion h
  rw [if_neg h5] at h
  by_cases h6 : ¬ c.timestamp < 0x80000000
  · rw [if_pos h6] at h
    exact Except.noConfusion h
  rw [if_neg h6] at h
  by_cases h7 : ¬ (c.tariff = 1 ∨ c.tariff = 2)
  · rw [if_pos h7] at h
    exact Except.noConfusion h
  rw [if_neg h7] at h
  by_cases h8 : ¬ (1900 < c.voltage_per_phase_1 ∧ c.voltage_per_phase_1 < 2700)
  · rw [if_pos h8] at h
    exact Except.noConfusion h
  rw [if_neg h8] at h
  by_cases h9 : ¬ (1900 < c.voltage_per_phase_2 ∧ c.voltage_per_phase_2 < 2700)
  · rw [if_pos h9] at h
    exact Except.noConfusion h
  rw [if_neg h9] at h
  by_cases h10 : ¬ (1900 < c.voltage_per_phase_3 ∧ c.voltage_per_phase_3 < 2700)
  · rw [if_pos h10] at h
    exact Except.noConfusion h
  rw [if_neg h10] at h
  push_neg at h1 h2 h3 h4 h5 h6 h7 h8 h9 h10
  exact ⟨h1, h2, h3, h4, h5, h6, h7, h8, h9, h10⟩

theorem is_sane_followup_some_iff (c p : Packet) :
    c.is_sane_followup (some p) = .ok true ↔ StructOk c ∧ DeltasNonNeg c p := by
  constructor
  · intro h
    have hs := is_sane_followup_ok_struct h
    refine ⟨hs, ?_⟩
    obtain ⟨e1, e2, e3, e4, e5, e6, e7, e8, e9, e10⟩ := hs
    unfold Packet.is_sane_followup at h
    rw [if_neg (not_not_intro e1), if_neg (not_not_intro e2), if_neg (not_not_intro e3),
      if_neg (not_not_intro e4), if_neg (not_not_intro e5), if_neg (not_not_intro e6),
      if_neg (not_not_intro e7), if_neg (not_not_intro e8), if_neg (not_not_intro e9),
      if_neg (not_not_intro e10)] at h
    simp only [Except.ok.injEq] at h
    unfold DeltasNonNeg
    exact of_decide_eq_true h
  · rintro ⟨⟨e1, e2, e3, e4, e5, e6, e7, e8, e9, e10⟩, hd⟩
    unfold Packet.is_sane_followup
    rw [if_neg (not_not_intro e1), if_neg (not_not_intro e2), if_neg (not_not_intro e3),
      if_neg (not_not_intro e4), if_neg (not_not_intro e5), if_neg (not_not_intro e6),
      if_neg (not_not_intro e7), if_neg (not_not_intro e8), if_neg (not_not_intro e9),
      if_neg (not_not_intro e10)]
    unfold DeltasNonNeg at hd
    exact congrArg Except.ok (decide_eq_true hd)

theorem is_sane_followup_pkt_some_iff (c p : Packet) :
    c.is_sane_followup_pkt (some p) = .ok true ↔ StructOk c ∧ DeltasSym c p := by
  constructor
  · intro h
    have hs := is_sane_followup_pkt_ok_struct h
    refine ⟨hs, ?_⟩
    obtain ⟨e1, e2, e3, e4, e5, e6, e7, e8, e9, e10⟩ := hs
    unfold Packet.is_sane_followup_pkt at h
    rw [if_neg (not_not_intro e1), if_neg (not_not_intro e2), if_neg (not_not_intro e3),
      if_neg (not_not_intro e4), if_neg (not_not_intro e5), if_neg (not_not_intro e6),
      if_neg (not_not_intro e7), if_neg (not_not_intro e8), if_neg (not_not_intro e9),
      if_neg (not_not_intro e10)] at h
    simp only [Except.ok.injEq] at h
    unfold DeltasSym
    exact of_decide_eq_true h
  · rintro ⟨⟨e1, e2, e3, e4, e5, e6, e7, e8, e9, e10⟩, hd⟩
    unfold Packet.is_sane_followup_pkt
    rw [if_neg (not_not_intro e1), if_neg (not_not_intro e2), if_neg (not_not_intro e3),
      if_neg (not_not_intro e4), if_neg (not_not_intro e5), if_neg (not_not_intro e6),
      if_neg (not_not_intro e7), if_neg (not_not_intro e8), if_neg (not_not_intro e9),
      if_neg (not_not_intro e10)]
    unfold DeltasSym at hd
    exact congrArg Except.ok (decide_eq_true hd)

theorem is_sane_followup_none_iff (c : Packet) :
    c.is_sane_followup none = .ok true ↔ StructOk c := by
  constructor
  · intro h
    exact is_sane_followup_ok_struct h
  · rintro ⟨e1, e2, e3, e4, e5, e6, e7, e8, e9, e10⟩
    unfold Packet.is_sane_followup
    rw [if_neg (not_not_intro e1), if_neg (not_not_intro e2), if_neg (not_not_intro e3),
      if_neg (not_not_intro e4), if_neg (not_not_intro e5), if_neg (not_not_intro e6),
      if_neg (not_not_intro e7), if_neg (not_not_intro e8), if_neg (not_not_intro e9),
      if_neg (not_not_intro e10)]

theorem is_sane_followup_pkt_none_iff (c : Packet) :
    c.is_sane_followup_pkt none = .ok true ↔ StructOk c := by
  constructor
  · intro h
    exact is_sane_followup_pkt_ok_struct h
  · rintro ⟨e1, e2, e3, e4, e5, e6, e7, e8, e9, e10⟩
    unfold Packet.is_sane_followup_pkt
    rw [if_neg (not_not_intro e1), if_neg (not_not_intro e2), if_neg (not_not_intro e3),
      if_neg (not_not_intro e4), if_neg (not_not_intro e5), if_neg (not_not_intro e6),
      if_neg (not_not_intro e7), if_neg (not_not_intro e8), if_neg (not_not_intro e9),
      if_neg (not_not_intro e10)]

theorem serialReadStep_no_header {raw : List Nat} (s : LoopState) (now : Nat)
    (h : rfindHeader raw = none) : serialReadStep s raw now = s := by
  unfold serialReadStep
  rw [h]

theorem serialReadStep_wrong_len {raw : List Nat} {start : Nat} (s : LoopState) (now : Nat)
    (h : rfindHeader raw = some start) (hl : (raw.drop start).length ≠ PACKET_SIZE) :
    serialReadStep s raw now =
      { s with attempts := s.attempts + 1, fail_len := s.fail_len + 1,
               consecutive_fails := s.consecutive_fails + 1 } := by
  unfold serialReadStep
  rw [h]
  exact if_pos hl

theorem serialReadStep_decode_fail {raw : List Nat} {start : Nat} (s : LoopState) (now : Nat)
    (h : rfindHeader raw = some start) (hl : (raw.drop start).length = PACKET_SIZE)
    (hd : decodePacket (raw.drop start) now = none) :
    serialReadStep s raw now =
      { s with attempts := s.attempts + 1, fail_parse := s.fail_parse + 1,
               consecutive_fails := s.consecutive_fails + 1 } := by
  unfold serialReadStep
  rw [h]
  refine Eq.trans (if_neg (not_not_intro hl)) ?_
  simp only [hd]

theorem serialReadStep_validator_error {raw : List Nat} {start : Nat} {parsed : Packet}
    {e : String} (s : LoopState) (now : Nat)
    (h : rfindHeader raw = some start) (hl : (raw.drop start).length = PACKET_SIZE)
    (hd : decodePacket (raw.drop start) now = some parsed)
    (hv : parsed.is_sane_followup s.previous_packet = .error e) :
    serialReadStep s raw now =
      { s with attempts := s.attempts + 1, fail_parse := s.fail_parse + 1,
               consecutive_fails := s.consecutive_fails + 1 } := by
  unfold serialReadStep
  rw [h]
  refine Eq.trans (if_neg (not_not_intro hl)) ?_
  simp only [hd, hv]

theorem serialReadStep_insane {raw : List Nat} {start : Nat} {parsed : Packet}
    (s : LoopState) (now : Nat)
    (h : rfindHeader raw = some start) (hl : (raw.drop start).length = PACKET_SIZE)
    (hd : decodePacket (raw.drop start) now = some parsed)
    (hv : parsed.is_sane_followup s.previous_packet = .ok false) :
    serialReadStep s raw now =
      { s with attempts := s.attempts + 1, fail_insane := s.fail_insane + 1,
               consecutive_fails := s.consecutive_fails + 1 } := by
  unfold serialReadStep
  rw [h]
  refine Eq.trans (if_neg (not_not_intro hl)) ?_
  simp only [hd, hv]

theorem serialReadStep_accept {raw : List Nat} {start : Nat} {parsed : Packet}
    (s : LoopState) (now : Nat)
    (h : rfindHeader raw = some start) (hl : (raw.drop start).length = PACKET_SIZE)
    (hd : decodePacket (raw.drop start) now = some parsed)
    (hv : parsed.is_sane_followup s.previous_packet = .ok true) :
    serialReadStep s raw now =
      { s with attempts := s.attempts + 1, previous_packet := s.packet,
               packet := some parsed, consecutive_fails := 0 } := by
  unfold serialReadStep
  rw [h]
  refine Eq.trans (if_neg (not_not_intro hl)) ?_
  simp only [hd, hv]

theorem stepAccepts_no_header {raw : List Nat} (s : LoopState) (now : Nat)
    (h : rfindHeader raw = none) : stepAccepts s raw now = none := by
  unfold stepAccepts
  rw [h]

theorem stepAccepts_wrong_len {raw : List Nat} {start : Nat} (s : LoopState) (now : Nat)
    (h : rfindHeader raw = some start) (hl : (raw.drop start).length ≠ PACKET_SIZE) :
    stepAccepts s raw now = none := by
  unfold stepAccepts
  rw [h]
  exact if_pos hl

theorem stepAccepts_decode_fail {raw : List Nat} {start : Nat} (s : LoopState) (now : Nat)
    (h : rfindHeader raw = some start) (hl : (raw.drop start).length = PACKET_SIZE)
    (hd : decodePacket (raw.drop start) now = none) : stepAccepts s raw now = none := by
  unfold stepAccepts
  rw [h]
  refine Eq.trans (if_neg (not_not_intro hl)) ?_
  simp only [hd]

theorem stepAccepts_validator_error {raw : List Nat} {start : Nat} {parsed : Packet}
    {e : String} (s : LoopState) (now : Nat)
    (h : rfindHeader raw = some start) (hl : (raw.drop start).length = PACKET_SIZE)
    (hd : decodePacket (raw.drop start) now = some parsed)
    (hv : parsed.is_sane_followup s.previous_packet = .error e) :
    stepAccepts s raw now = none := by
  unfold stepAccepts
  rw [h]
  refine Eq.trans (if_neg (not_not_intro hl)) ?_
  simp only [hd, hv]

theorem stepAccepts_insane {raw : List Nat} {start : Nat} {parsed : Packet}
    (s : LoopState) (now : Nat)
    (h : rfindHeader raw = some start) (hl : (raw.drop start).length = PACKET_SIZE)
    (hd : decodePacket (raw.drop start) now = some parsed)
    (hv : parsed.is_sane_followup s.previous_packet = .ok false) :
    stepAccepts s raw now = none := by
  unfold stepAccepts
  rw [h]
  refine Eq.trans (if_neg (not_not_intro hl)) ?_
  simp only [hd, hv]

theorem stepAccepts_accept {raw : List Nat} {start : Nat} {parsed : Packet}
    (s : LoopState) (now : Nat)
    (h : rfindHeader raw = some start) (hl : (raw.drop start).length = PACKET_SIZE)
    (hd : decodePacket (raw.drop start) now = some parsed)
    (hv : parsed.is_sane_followup s.previous_packet = .ok true) :
    stepAccepts s raw now = some parsed := by
  unfold stepAccepts
  rw [h]
  refine Eq.trans (if_neg (not_not_intro hl)) ?_
  simp only [hd, hv]

theorem structInv_step {s : LoopState} (raw : List Nat) (now : Nat)
    (hs : StructInv s) : StructInv (serialReadStep s raw now) := by
  rcases hr : rfindHeader raw with _ | start
  · rw [serialReadStep_no_header s now hr]
    exact hs
  · by_cases hl : (raw.drop start).length = PACKET_SIZE
    · rcases hd : decodePacket (raw.drop start) now with _ | parsed
      · rw [serialReadStep_decode_fail s now hr hl hd]
        intro p hp
        exact hs p hp
      · rcases hv : parsed.is_sane_followup s.previous_packet with e | b
        · rw [serialReadStep_validator_error s now hr hl hd hv]
          intro p hp
          exact hs p hp
        · cases b
          · rw [serialReadStep_insane s now hr hl hd hv]
            intro p hp
            exact hs p hp
          · rw [serialReadStep_accept s now hr hl hd hv]
            intro p hp
            obtain rfl := Option.some.inj (show some parsed = some p from hp)
            exact is_sane_followup_ok_struct hv
    · rw [serialReadStep_wrong_len s now hr hl]
      intro p hp
      exact hs p hp

theorem structInv_runInner {s : LoopState} (inputs : List (List Nat × Nat))
    (hs : StructInv s) : StructInv (runInner s inputs).1 := by
  induction inputs generalizing s with
  | nil => exact hs
  | cons input rest ih =>
    obtain ⟨raw, now⟩ := input
    unfold runInner
    by_cases hb : s.consecutive_fails > 10
    · rw [if_pos hb]
      exact hs
    · rw [if_neg hb]
      exact ih (structInv_step raw now hs)

theorem cf_step_le (s : LoopState) (raw : List Nat) (now : Nat) :
    (serialReadStep s raw now).consecutive_fails ≤ s.consecutive_fails + 1 := by
  rcases hr : rfindHeader raw with _ | start
  · rw [serialReadStep_no_header s now hr]
    exact Nat.le_succ _
  · by_cases hl : (raw.drop start).length = PACKET_SIZE
    · rcases hd : decodePacket (raw.drop start) now with _ | parsed
      · rw [serialReadStep_decode_fail s now hr hl hd]
      · rcases hv : parsed.is_sane_followup s.previous_packet with e | b
        · rw [serialReadStep_validator_error s now hr hl hd hv]
        · cases b
          · rw [serialReadStep_insane s now hr hl hd hv]
          · rw [serialReadStep_accept s now hr hl hd hv]
            exact Nat.zero_le _
    · rw [serialReadStep_wrong_len s now hr hl]

theorem cf_runInner_le {s : LoopState} (inputs : List (List Nat × Nat))
    (hs : s.consecutive_fails ≤ 11) : ((runInner s inputs).1).consecutive_fails ≤ 11 := by
  induction inputs generalizing s with
  | nil => exact hs
  | cons input rest ih =>
    obtain ⟨raw, now⟩ := input
    unfold runInner
    by_cases hb : s.consecutive_fails > 10
    · rw [if_pos hb]
      exact hs
    · rw [if_neg hb]
      exact ih (by have := cf_step_le s raw now; omega)

/-- C9 (counterexample): with each field at the width the spec table gives it,
with sum_power_delivered and sum_power_injected at 4 bytes each, the widths
sum to 64, not 60, so the claimed layout contradicts the 60 byte contract. -/
theorem c9_counterexample : specTableWidths.sum = 64 ∧ specTableWidths.sum ≠ 60 := by
  decide

/-- C9 (amended): with sum_power_delivered and sum_power_injected at 2 bytes
each, the per field widths sum to exactly 60; the implementation format packs
exactly those widths, its computed size is 60, and the build time assertion
PACKET_SIZE equals 60 holds. -/
theorem c9_wire_layout_size : specTableWidthsAmended.sum = 60 ∧ PACKET_SIZE = 60 ∧
    (PACKET_FORMAT.data.map fieldSize).filter (fun w => w != 0) = specTableWidthsAmended := by
  decide

/-- C8: when a transmission unit contains no occurrence of the header marker,
the whole unit is discarded and the loop state, including the consecutive
failure counter, every failure category counter and the attempt counter, is
unchanged. -/
theorem c8_no_header_discard (s : LoopState) (raw : List Nat) (now : Nat)
    (h : rfindHeader raw = none) : serialReadStep s raw now = s :=
  serialReadStep_no_header s now h

theorem c8_witness : serialReadStep initState [1, 2, 3] 0 = initState :=
  c8_no_header_discard initState [1, 2, 3] 0 (by decide)

/-- C7: when the extracted candidate frame does not have length exactly
PACKET_SIZE, the step leaves the published packet and continuity reference
unchanged and increments exactly the attempt counter, the length failure
counter and the consecutive failure counter, without invoking the decoder. -/
theorem c7_wrong_length (s : LoopState) (raw : List Nat) (now : Nat) (start : Nat)
    (h : rfindHeader raw = some start) (hl : (raw.drop start).length ≠ PACKET_SIZE) :
    serialReadStep s raw now =
      { s with attempts := s.attempts + 1, fail_len := s.fail_len + 1,
               consecutive_fails := s.consecutive_fails + 1 } :=
  serialReadStep_wrong_len s now h hl

theorem c7_witness : serialReadStep initState [0x42, 0xAA, 0xFF, 0x55, 0xAA] 0 =
    { initState with attempts := 1, fail_len := 1, consecutive_fails := 1 } :=
  c7_wrong_length initState [0x42, 0xAA, 0xFF, 0x55, 0xAA] 0 0 (by decide) (by decide)

/-- C6: on the first packet of a session, when the previous snapshot is
absent, both validators accept exactly when every structural check passes,
independently of the cumulative field values. -/
theorem c6_first_packet (c : Packet) :
    (c.is_sane_followup none = .ok true ↔ StructOk c) ∧
    (c.is_sane_followup_pkt none = .ok true ↔ StructOk c) :=
  ⟨is_sane_followup_none_iff c, is_sane_followup_pkt_none_iff c⟩

/-- C2 (counterexample): the packet.py copy of the validator accepts a
candidate whose gas volume delta against the previous snapshot is negative,
refuting the claim that validate rejects every negative delta. -/
theorem c2_counterexample :
    ((samplePacket 500).gas_volume : Int) - ((samplePacket 1000).gas_volume : Int) < 0 ∧
    Packet.is_sane_followup_pkt (samplePacket 500) (some (samplePacket 1000)) = .ok true := by
  decide

/-- C2 (amended): the p1logger.py validator used by the read loop accepts a
candidate against a present previous snapshot exactly when the structural
checks pass and every cumulative delta lies in the interval from 0 inclusive
to 10000 exclusive, and in particular never accepts when any delta is
outside that range; the packet.py copy instead accepts exactly when every
delta lies in the symmetric interval from minus 10000 inclusive to 10000
exclusive, so there negative deltas are accepted. -/
theorem c2_continuity_deltas (c p : Packet) :
    (c.is_sane_followup (some p) = .ok true ↔ StructOk c ∧ DeltasNonNeg c p) ∧
    (¬ DeltasNonNeg c p → c.is_sane_followup (some p) ≠ .ok true) ∧
    (c.is_sane_followup_pkt (some p) = .ok true ↔ StructOk c ∧ DeltasSym c p) := by
  refine ⟨is_sane_followup_some_iff c p, ?_, is_sane_followup_pkt_some_iff c p⟩
  intro hnd hok
  exact hnd ((is_sane_followup_some_iff c p).mp hok).2

theorem c2_witness :
    Packet.is_sane_followup (samplePacket 500) (some (samplePacket 1000)) ≠ .ok true :=
  (c2_continuity_deltas (samplePacket 500) (samplePacket 1000)).2.1 (by decide)

/-- C3: the published snapshot invariant holds initially, is preserved by
every read loop iteration, by whole runs of the inner loop, and by
reconnects; hence in every reachable state of the supervisor a published
packet satisfies every structural check (markers, timestamp threshold,
tariff, voltage window), and no snapshot failing a structural check is ever
published to subscribers. -/
theorem c3_structural_invariant :
    StructInv initState ∧
    (∀ (s : LoopState) (raw : List Nat) (now : Nat),
      StructInv s → StructInv (serialReadStep s raw now)) ∧
    (∀ (s : LoopState) (inputs : List (List Nat × Nat)),
      StructInv s → StructInv (runInner s inputs).1) ∧
    (∀ s : LoopState, StructInv s → StructInv (reconnectState s)) := by
  refine ⟨?_, ?_, ?_, ?_⟩
  · intro p hp
    exact Option.noConfusion hp
  · intro s raw now hs
    exact structInv_step raw now hs
  · intro s inputs hs
    exact structInv_runInner inputs hs
  · intro s hs p hp
    exact hs p hp

theorem c3_witness : StructInv (serialReadStep initState (sampleFrame 1000) 0) :=
  c3_structural_invariant.2.1 initState (sampleFrame 1000) 0
    (by intro p hp; exact Option.noConfusion hp)

/-- C5: one guarded step raises the consecutive failure counter to at most
11; every run of the inner loop keeps it at most 11; as soon as it exceeds
10 the inner loop breaks at once to signal teardown and reconnection; and on
re-entering the streaming state after a reconnect the counter is 0. -/
theorem c5_failure_budget :
    (∀ (s : LoopState) (raw : List Nat) (now : Nat), s.consecutive_fails ≤ 10 →
      (serialReadStep s raw now).consecutive_fails ≤ 11) ∧
    (∀ (s : LoopState) (inputs : List (List Nat × Nat)), s.consecutive_fails ≤ 11 →
      ((runInner s inputs).1).consecutive_fails ≤ 11) ∧
    (∀ (s : LoopState) (input : List Nat × Nat) (rest : List (List Nat × Nat)),
      s.consecutive_fails > 10 → runInner s (input :: rest) = (s, true)) ∧
    (∀ s : LoopState, (reconnectState s).consecutive_fails = 0) := by
  refine ⟨?_, ?_, ?_, ?_⟩
  · intro s raw now h
    have := cf_step_le s raw now
    omega
  · intro s inputs h
    exact cf_runInner_le inputs h
  · intro s input rest h
    obtain ⟨raw, now⟩ := input
    unfold runInner
    rw [if_pos h]
  · intro s
    rfl

theorem c5_witness :
    runInner ⟨none, none, 0, 0, 0, 0, 11⟩ [([], 0)] = (⟨none, none, 0, 0, 0, 0, 11⟩, true) :=
  c5_failure_budget.2.2.1 ⟨none, none, 0, 0, 0, 0, 11⟩ ([], 0) [] (by decide)

/-- C1 (counterexample): run the loop on three frames with gas volumes 1000,
1500 and 1200. After the second acceptance the published snapshot is the
1500 frame, but the continuity reference for the next candidate is still the
1000 frame, not the most recently accepted snapshot; consequently the third
frame is accepted even though its gas delta against the most recently
accepted snapshot is negative, which the claim says must be rejected with
the last accepted snapshot unchanged. -/
theorem c1_counterexample :
    (serialReadStep (serialReadStep initState (sampleFrame 1000) 0)
        (sampleFrame 1500) 0).packet = some (samplePacket 1500) ∧
    (serialReadStep (serialReadStep initState (sampleFrame 1000) 0)
        (sampleFrame 1500) 0).previous_packet = some (samplePacket 1000) ∧
    samplePacket 1000 ≠ samplePacket 1500 ∧
    (serialReadStep (serialReadStep (serialReadStep initState (sampleFrame 1000) 0)
        (sampleFrame 1500) 0) (sampleFrame 1200) 0).packet = some (samplePacket 1200) ∧
    ((samplePacket 1200).gas_volume : Int) - ((samplePacket 1500).gas_volume : Int) < 0 := by
  decide

/-- C1 (amended): when an iteration accepts a packet, the accepted packet is
published and the continuity reference becomes the snapshot that was
published before it, one acceptance behind; when the iteration does not
accept, both the published snapshot and the continuity reference stay
unchanged. -/
theorem c1_continuity_reference (s : LoopState) (raw : List Nat) (now : Nat) :
    (∀ p, stepAccepts s raw now = some p →
      (serialReadStep s raw now).previous_packet = s.packet ∧
      (serialReadStep s raw now).packet = some p) ∧
    (stepAccepts s raw now = none →
      (serialReadStep s raw now).previous_packet = s.previous_packet ∧
      (serialReadStep s raw now).packet = s.packet) := by
  rcases hr : rfindHeader raw with _ | start
  · refine ⟨?_, ?_⟩
    · intro p hp
      rw [stepAccepts_no_header s now hr] at hp
      exact Option.noConfusion hp
    · intro _
      rw [serialReadStep_no_header s now hr]
      exact ⟨rfl, rfl⟩
  · by_cases hl : (raw.drop start).length = PACKET_SIZE
    · rcases hd : decodePacket (raw.drop start) now with _ | parsed
      · refine ⟨?_, ?_⟩
        · intro p hp
          rw [stepAccepts_decode_fail s now hr hl hd] at hp
          exact Option.noConfusion hp
        · intro _
          rw [serialReadStep_decode_fail s now hr hl hd]
          exact ⟨rfl, rfl⟩
      · rcases hv : parsed.is_sane_followup s.previous_packet with e | b
        · refine ⟨?_, ?_⟩
          · intro p hp
            rw [stepAccepts_validator_error s now hr hl hd hv] at hp
            exact Option.noConfusion hp
          · intro _
            rw [serialReadStep_validator_error s now hr hl hd hv]
            exact ⟨rfl, rfl⟩
        · cases b
          · refine ⟨?_, ?_⟩
            · intro p hp
              rw [stepAccepts_insane s now hr hl hd hv] at hp
              exact Option.noConfusion hp
            · intro _
              rw [serialReadStep_insane s now hr hl hd hv]
              exact ⟨rfl, rfl⟩
          · refine ⟨?_, ?_⟩
            · intro p hp
              rw [stepAccepts_accept s now hr hl hd hv] at hp
              obtain rfl := Option.some.inj hp
              rw [serialReadStep_accept s now hr hl hd hv]
              exact ⟨rfl, rfl⟩
            · intro hn
              rw [stepAccepts_accept s now hr hl hd hv] at hn
              exact Option.noConfusion hn
    · refine ⟨?_, ?_⟩
      · intro p hp
        rw [stepAccepts_wrong_len s now hr hl] at hp
        exact Option.noConfusion hp
      · intro _
        rw [serialReadStep_wrong_len s now hr hl]
        exact ⟨rfl, rfl⟩

theorem c1_witness :
    (serialReadStep initState (sampleFrame 1000) 0).previous_packet = none ∧
    (serialReadStep initState (sampleFrame 1000) 0).packet = some (samplePacket 1000) :=
  (c1_continuity_reference initState (sampleFrame 1000) 0).1 (samplePacket 1000) (by decide)

/-- C4 (counterexample): a unit of one noise byte, the header, 57 arbitrary
bytes (here zeros) and the trailer is 63 bytes, and the extracted candidate
is the full 62 byte span from the header, not a 60 byte frame, so the
claimed 60 byte extraction is impossible for that shape; moreover when the
57 arbitrary bytes themselves start with another header occurrence the
candidate is the shorter 59 byte span from that last occurrence. -/
theorem c4_counterexample :
    extractCandidate ([7] ++ ([0x42, 0xAA, 0xFF] ++ List.replicate 57 0 ++ [0x55, 0xAA])) =
      some ([0x42, 0xAA, 0xFF] ++ List.replicate 57 0 ++ [0x55, 0xAA]) ∧
    ([0x42, 0xAA, 0xFF] ++ List.replicate 57 (0 : Nat) ++ [0x55, 0xAA]).length ≠ 60 ∧
    extractCandidate ([9] ++ ([0x42, 0xAA, 0xFF] ++
        ([0x42, 0xAA, 0xFF] ++ List.replicate 54 0) ++ [0x55, 0xAA])) =
      some ([0x42, 0xAA, 0xFF] ++ List.replicate 54 0 ++ [0x55, 0xAA]) := by
  decide

/-- C4 (amended): the candidate frame is always the span from the last
header occurrence to the end of the unit; and for a unit of arbitrary
leading noise, the header, 55 arbitrary bytes and the trailer, where no
further header occurrence follows the leading one, the extracted candidate
is exactly that 60 byte span. -/
theorem c4_framer_extraction :
    (∀ (u c : List Nat), extractCandidate u = some c →
      ∃ i, isHeaderAt u i = true ∧ (∀ j, i < j → isHeaderAt u j = false) ∧ c = u.drop i) ∧
    (∀ noise mid : List Nat, mid.length = 55 →
      (∀ j < (noise ++ ([0x42, 0xAA, 0xFF] ++ mid ++ [0x55, 0xAA])).length,
        noise.length < j →
        isHeaderAt (noise ++ ([0x42, 0xAA, 0xFF] ++ mid ++ [0x55, 0xAA])) j = false) →
      extractCandidate (noise ++ ([0x42, 0xAA, 0xFF] ++ mid ++ [0x55, 0xAA])) =
        some ([0x42, 0xAA, 0xFF] ++ mid ++ [0x55, 0xAA]) ∧
      ([0x42, 0xAA, 0xFF] ++ mid ++ [0x55, 0xAA]).length = 60) := by
  constructor
  · intro u c hc
    unfold extractCandidate at hc
    rcases hr : rfindHeader u with _ | i
    · rw [hr] at hc
      exact Option.noConfusion hc
    · rw [hr] at hc
      obtain ⟨hhi, hlast⟩ := rfindHeader_some hr
      exact ⟨i, hhi, hlast, (Option.some.inj (show some (u.drop i) = some c from hc)).symm⟩
  · intro noise mid hmid H
    have hfr : (noise ++ ([0x42, 0xAA, 0xFF] ++ mid ++ [0x55, 0xAA])).drop noise.length =
        [0x42, 0xAA, 0xFF] ++ mid ++ [0x55, 0xAA] := List.drop_left _ _
    have hi0 : isHeaderAt (noise ++ ([0x42, 0xAA, 0xFF] ++ mid ++ [0x55, 0xAA]))
        noise.length = true := by
      unfold isHeaderAt
      rw [hfr]
      rfl
    obtain ⟨r, hr⟩ := rfindHeader_of_header hi0
    obtain ⟨hhr, hlast⟩ := rfindHeader_some hr
    have hrn : r = noise.length := by
      rcases Nat.lt_trichotomy r noise.length with hlt | heq | hgt
      · have hfalse := hlast noise.length hlt
        rw [hfalse] at hi0
        exact Bool.noConfusion hi0
      · exact heq
      · have hb := isHeaderAt_bound hhr
        have hfalse := H r (by omega) hgt
        rw [hfalse] at hhr
        exact Bool.noConfusion hhr
    subst hrn
    constructor
    · unfold extractCandidate
      rw [hr]
      exact congrArg some hfr
    · simp [hmid]

theorem c4_witness :
    extractCandidate ([7] ++ ([0x42, 0xAA, 0xFF] ++ List.replicate 55 0 ++ [0x55, 0xAA])) =
      some ([0x42, 0xAA, 0xFF] ++ List.replicate 55 0 ++ [0x55, 0xAA]) ∧
    ([0x42, 0xAA, 0xFF] ++ List.replicate 55 (0 : Nat) ++ [0x55, 0xAA]).length = 60 :=
  c4_framer_extraction.2 [7] (List.replicate 55 0) (by decide) (by decide)

/-- C10: every candidate the framer extracts from a unit that ends with the
trailer bytes, when it has length exactly 60, decodes to a packet whose
header marker fields are 42 AA FF and whose trailer marker fields are 55 AA,
so the marker structural checks of the validator cannot fail on a frame
that came through the framing path. -/
theorem c10_markers_always_valid (u : List Nat) (now : Nat) (c : List Nat)
    (hu : u.drop (u.length - 2) = [0x55, 0xAA])
    (hc : extractCandidate u = some c) (hlen : c.length = 60) :
    ∃ p, decodePacket c now = some p ∧ p.pre0 = 0x42 ∧ p.pre1 = 0xAA ∧
      p.pre2 = 0xFF ∧ p.post0 = 0x55 ∧ p.post1 = 0xAA := by
  unfold extractCandidate at hc
  rcases hr : rfindHeader u with _ | i
  · rw [hr] at hc
    exact Option.noConfusion hc
  · rw [hr] at hc
    obtain rfl := Option.some.inj (show some (u.drop i) = some c from hc)
    obtain ⟨hhi, _⟩ := rfindHeader_some hr
    have h3 : (u.drop i).take 3 = [0x42, 0xAA, 0xFF] := isHeaderAt_take hhi
    have hlu : (u.drop i).length = 60 := hlen
    rw [List.length_drop] at hlu
    have hb := isHeaderAt_bound hhi
    have h58 : (u.drop i).drop 58 = [0x55, 0xAA] := by
      rw [List.drop_drop]
      rw [show i + 58 = u.length - 2 by omega]
      exact hu
    obtain ⟨p, hp, h1, h2, h3p, h4, h5, _⟩ :=
      decodePacket_markers (u.drop i) now (by rw [List.length_drop]; omega) h3 h58
    exact ⟨p, hp, h1, h2, h3p, h4, h5⟩

theorem c10_witness :
    ∃ p, decodePacket (sampleFrame 1000) 0 = some p ∧ p.pre0 = 0x42 ∧ p.pre1 = 0xAA ∧
      p.pre2 = 0xFF ∧ p.post0 = 0x55 ∧ p.post1 = 0xAA :=
  c10_markers_always_valid (sampleFrame 1000) 0 (sampleFrame 1000)
    (by decide) (by decide) (by decide)
